import Mathlib

/-!
Verification development for the `bevy-dodger` game (`src/main.rs`).

The game is a single-file bevy-0.6 application.  The per-frame systems
(`apply_velocity`, `enemy_spawner`, `player_movement`, `check_collisions`,
`end_on_collision`, `update_score`), the state machine wiring in `main`,
and the setup/cleanup systems are shallowly embedded below.  Engine
primitives the game calls into (`bevy::sprite::collide_aabb::collide`,
`bevy_ecs`'s `State::set`/`State::current`, `bevy_core`'s repeating
`Timer`) are embedded from their bevy-0.6 sources, since the game's
behaviour depends on their exact semantics.

All `f32` quantities are modelled as exact rationals; `rand`'s
`gen_range` over a half-open `Range<f32>` is modelled by an arbitrary
sample together with the range-membership fact it guarantees.
-/

namespace Dodger

/-- 2-component vector (models glam `Vec2` values used by the game). -/
structure Vec2 where
  x : ℚ
  y : ℚ
deriving DecidableEq, Repr

/-- 3-component vector (models glam `Vec3` values used by the game). -/
structure Vec3 where
  x : ℚ
  y : ℚ
  z : ℚ
deriving DecidableEq, Repr

/-- `Vec3::truncate` drops the z component. -/
def Vec3.truncate (v : Vec3) : Vec2 := ⟨v.x, v.y⟩

def Vec3.add (a b : Vec3) : Vec3 := ⟨a.x + b.x, a.y + b.y, a.z + b.z⟩

/-- `v * dt` : scaling a velocity vector by a scalar frame time. -/
def Vec3.scale (v : Vec3) (c : ℚ) : Vec3 := ⟨v.x * c, v.y * c, v.z * c⟩

/-- The parts of bevy's `Transform` the game reads and writes. -/
structure Transform where
  translation : Vec3
  scale : Vec3
deriving DecidableEq, Repr

/-- A closed-open rational range, modelling a Rust `Range<f32>` constant. -/
structure RangeQ where
  lo : ℚ
  hi : ℚ
deriving DecidableEq, Repr

/-- Membership in a Rust `Range` as sampled by `rand`'s `gen_range`:
the sample lies in the half-open interval `[lo, hi)`. -/
def RangeQ.mem (r : RangeQ) (q : ℚ) : Prop := r.lo ≤ q ∧ q < r.hi

-- Constants from `main.rs` lines 6-11.
def SPRITE_SIZE : ℚ := 16
def SCREEN_X_RANGE : RangeQ := ⟨-320, 320⟩
def SCREEN_Y_RANGE : RangeQ := ⟨-220, 220⟩
def OBJECT_SIZE : RangeQ := ⟨1/2, 5⟩
def OBJECT_SPEED : RangeQ := ⟨50, 125⟩
def PLAYER_SPEED : ℚ := 100

/-- `enum GameState { Title, Playing, GameOver }` (`main.rs` lines 20-25). -/
inductive GameState where
  | Title
  | Playing
  | GameOver
deriving DecidableEq, Repr

/-- Error type of bevy-0.6 `State::set`. -/
inductive StateError where
  | AlreadyInState
  | StateAlreadyQueued
deriving DecidableEq, Repr

/-- bevy-0.6 `State<T>`: the active state (top of the state stack, what
`current()` returns) together with the queued transition, if any.  A `set`
only queues the transition; `current` keeps returning the old state until
the state driver applies the queued transition after the update systems. -/
structure BevyState where
  current : GameState
  transition : Option GameState
deriving DecidableEq, Repr

/-- bevy-0.6 `State::set`: errors with `AlreadyInState` when the requested
state equals the active one, with `StateAlreadyQueued` when a transition is
already queued; otherwise queues the transition. -/
def BevyState.set (s : BevyState) (g : GameState) : Except StateError BevyState :=
  if s.current = g then .error .AlreadyInState
  else if s.transition.isSome then .error .StateAlreadyQueued
  else .ok { s with transition := some g }

/-- `struct CollisionEvent(Entity, Entity)` — (player id, obstacle id). -/
structure CollisionEvent where
  player : ℕ
  obstacle : ℕ
deriving DecidableEq, Repr

/-- `end_on_collision` (`main.rs` lines 367-378): iterates the frame's
collision events; for each, returns early (keeping the state) if the
active state is not `Playing`, otherwise calls `state.set(GameOver).unwrap()`.
The `unwrap` of an `Err` is a Rust panic, modelled as `none`. -/
def end_on_collision : List CollisionEvent → BevyState → Option BevyState
  | [], s => some s
  | _ :: rest, s =>
    if s.current ≠ GameState.Playing then some s
    else
      match s.set GameState.GameOver with
      | .ok s' => end_on_collision rest s'
      | .error _ => none

/-- `start_game` (`main.rs` lines 231-235): while Space is pressed, calls
`state.set(Playing).unwrap()`; the `unwrap` of an `Err` is a panic (`none`). -/
def start_game (spacePressed : Bool) (s : BevyState) : Option BevyState :=
  if spacePressed then
    match s.set GameState.Playing with
    | .ok s' => some s'
    | .error _ => none
  else some s

/-- bevy-0.6 repeating-capable `Timer` (duration, elapsed stopwatch,
repeating flag, finished flag, completions counted by the last tick). -/
structure Timer where
  duration : ℚ
  elapsed : ℚ
  repeating : Bool
  finished : Bool
  paused : Bool
  times_finished : ℕ
deriving DecidableEq, Repr

/-- `Timer::new(duration, repeating)`: zero elapsed, not finished, unpaused. -/
def Timer.new (duration : ℚ) (repeating : Bool) : Timer :=
  ⟨duration, 0, repeating, false, false, 0⟩

/-- bevy-0.6 `Timer::tick(delta)`: paused timers ignore the tick; a finished
non-repeating timer stays put; otherwise the stopwatch advances and the timer
finishes when `elapsed ≥ duration`, a repeating timer wrapping its elapsed
time to the remainder `elapsed - duration * (elapsed div duration)`
so overflow past the period is kept. -/
def Timer.tick (t : Timer) (delta : ℚ) : Timer :=
  if t.paused then t
  else if ¬t.repeating ∧ t.finished then { t with times_finished := 0 }
  else
    let elapsed := t.elapsed + delta
    if elapsed ≥ t.duration then
      if t.repeating then
        let n : ℕ := ⌊elapsed / t.duration⌋.toNat
        { t with elapsed := elapsed - t.duration * n, finished := true, times_finished := n }
      else
        { t with elapsed := t.duration, finished := true, times_finished := 1 }
    else
      { t with elapsed := elapsed, finished := false, times_finished := 0 }

/-- Sides reported by bevy-0.6 `collide_aabb::Collision`. -/
inductive Collision where
  | Left
  | Right
  | Top
  | Bottom
deriving DecidableEq, Repr

/-- The x-side branch of bevy-0.6 `collide`: which horizontal side was hit
(if determinable) together with the penetration depth. -/
def collideX (a_min a_max b_min b_max : Vec2) : Option Collision × ℚ :=
  if a_min.x < b_min.x ∧ a_max.x > b_min.x ∧ a_max.x < b_max.x then
    (some Collision.Left, b_min.x - a_max.x)
  else if a_min.x > b_min.x ∧ a_min.x < b_max.x ∧ a_max.x > b_max.x then
    (some Collision.Right, a_min.x - b_max.x)
  else (none, 0)

/-- The y-side branch of bevy-0.6 `collide`. -/
def collideY (a_min a_max b_min b_max : Vec2) : Option Collision × ℚ :=
  if a_min.y < b_min.y ∧ a_max.y > b_min.y ∧ a_max.y < b_max.y then
    (some Collision.Bottom, b_min.y - a_max.y)
  else if a_min.y > b_min.y ∧ a_min.y < b_max.y ∧ a_max.y > b_max.y then
    (some Collision.Top, a_min.y - b_max.y)
  else (none, 0)

/-- The body of bevy-0.6 `collide` inside its intersection test, on the
already-computed box corners: the hit side is picked from the x/y side
branches by penetration depth; when neither axis determined a side the
result is `none`. -/
def collide_sides (a_min a_max b_min b_max : Vec2) : Option Collision :=
  let xc := collideX a_min a_max b_min b_max
  let yc := collideY a_min a_max b_min b_max
  match xc.1, yc.1 with
  | some x, some y => if |yc.2| < |xc.2| then some y else some x
  | some x, none => some x
  | none, some y => some y
  | none, none => none

/-- bevy-0.6 `bevy::sprite::collide_aabb::collide(a_pos, a_size, b_pos, b_size)`:
computes the two boxes' min/max corners from centres and sizes, then inside
the strict-intersection test resolves the hit side (`collide_sides`).  When
neither axis determines a side (e.g. one box inside the other) the
function returns `none` even though the boxes intersect. -/
def collide (a_pos : Vec3) (a_size : Vec2) (b_pos : Vec3) (b_size : Vec2) :
    Option Collision :=
  let a_min : Vec2 := ⟨a_pos.x - a_size.x / 2, a_pos.y - a_size.y / 2⟩
  let a_max : Vec2 := ⟨a_pos.x + a_size.x / 2, a_pos.y + a_size.y / 2⟩
  let b_min : Vec2 := ⟨b_pos.x - b_size.x / 2, b_pos.y - b_size.y / 2⟩
  let b_max : Vec2 := ⟨b_pos.x + b_size.x / 2, b_pos.y + b_size.y / 2⟩
  if a_min.x < b_max.x ∧ a_max.x > b_min.x ∧ a_min.y < b_max.y ∧ a_max.y > b_min.y then
    collide_sides a_min a_max b_min b_max
  else
    none

/-- `transform.scale.truncate() * SPRITE_SIZE` — the AABB size used by
`check_collisions` for an entity with the given transform. -/
def entity_box_size (t : Transform) : Vec2 :=
  ⟨t.scale.x * SPRITE_SIZE, t.scale.y * SPRITE_SIZE⟩

/-- `check_collisions` (`main.rs` lines 344-365): for every queried player
and every queried collider, call `collide` on their translations and scaled
sprite sizes and send a `CollisionEvent(player, projectile)` when it is
`Some`.  Entities are modelled as (id, transform) pairs. -/
def check_collisions (players obstacles : List (ℕ × Transform)) :
    List CollisionEvent :=
  players.flatMap fun p =>
    let player_size := entity_box_size p.2
    obstacles.filterMap fun o =>
      if (collide p.2.translation player_size o.2.translation
            (entity_box_size o.2)).isSome then
        some ⟨p.1, o.1⟩
      else none

/-- The keys the game reads through `Input<KeyCode>::pressed`. -/
structure KeysPressed where
  left : Bool
  right : Bool
deriving DecidableEq, Repr

/-- `player_movement` (`main.rs` lines 316-336) acting on one player
transform: direction starts at `0.0`, is decremented while Left is pressed
and incremented while Right is pressed, and only the x translation is
rewritten to `x + direction * PLAYER_SPEED * delta_time`. -/
def player_movement (delta_time : ℚ) (keys : KeysPressed) (t : Transform) :
    Transform :=
  let direction : ℚ := 0
  let direction := if keys.left then direction - 1 else direction
  let direction := if keys.right then direction + 1 else direction
  { t with translation :=
      ⟨t.translation.x + direction * PLAYER_SPEED * delta_time,
       t.translation.y, t.translation.z⟩ }

/-- `update_score` (`main.rs` lines 338-342), score mutation only:
`scoreboard.score += time.delta_seconds()`. -/
def update_score (delta_time score : ℚ) : ℚ := score + delta_time

/-- The per-frame score dispatch of `main` (`main.rs` lines 66-76):
`update_score` is registered only in `SystemSet::on_update(GameState::Playing)`,
so a frame runs it exactly when the active phase is `Playing`. -/
def score_frame (phase : GameState) (delta_time score : ℚ) : ℚ :=
  if phase = GameState.Playing then update_score delta_time score else score

/-- Folding `score_frame` over a list of (phase, delta_time) frames. -/
def run_score (frames : List (GameState × ℚ)) (score : ℚ) : ℚ :=
  frames.foldl (fun sc f => score_frame f.1 f.2 sc) score

/-- The entity data the game attaches to things it spawns: the `Player`
and `Collider` marker components, the `Transform`, and the optional
`Velocity` component. -/
structure GEntity where
  isPlayer : Bool
  isCollider : Bool
  transform : Transform
  velocity : Option Vec3
deriving DecidableEq, Repr

/-- bevy's default transform: translation 0, scale 1. -/
def default_transform : Transform := ⟨⟨0, 0, 0⟩, ⟨1, 1, 1⟩⟩

/-- The 2d camera spawned by `setup` (no game components). -/
def camera_entity : GEntity := ⟨false, false, default_transform, none⟩

/-- The UI camera spawned by `setup` (no game components). -/
def ui_camera_entity : GEntity := ⟨false, false, default_transform, none⟩

/-- The player spawned by `setup` (`main.rs` lines 171-182): a sprite at
translation `(0, SCREEN_Y_RANGE.start, 0)` with scale `1`, tagged `Player`,
with no `Velocity` and no `Collider`. -/
def player_entity : GEntity :=
  ⟨true, false, ⟨⟨0, SCREEN_Y_RANGE.lo, 0⟩, ⟨1, 1, 1⟩⟩, none⟩

/-- The scoreboard text spawned by `setup` (no game components). -/
def score_text_entity : GEntity := ⟨false, false, default_transform, none⟩

/-- The entities spawned by `setup` (`main.rs` lines 153-223), in spawn
order: 2d camera, UI camera, player sprite, scoreboard text. -/
def setup_entities : List GEntity :=
  [camera_entity, ui_camera_entity, player_entity, score_text_entity]

/-- `setup` resets the scoreboard: `scoreboard.score = 0.0` (line 163). -/
def setup_scoreboard : ℚ := 0

/-- `setup` inserts a fresh repeating 1-second `SpawnTimer` (lines 186-188). -/
def setup_spawn_timer : Timer := Timer.new 1 true

/-- `cleanup` (`main.rs` lines 225-229): despawns every entity of the
world (the query is an unfiltered `Query<Entity>`). -/
def cleanup (_world : List GEntity) : List GEntity := []

/-- Entering `Playing`: bevy runs the old state's `on_exit` set (`cleanup`)
before the new state's `on_enter` set (`setup`), per the schedule built in
`main` (`main.rs` lines 63-79); the world after the hand-over is `setup`'s
spawn list appended to the cleaned-out world. -/
def enter_playing (world : List GEntity) : List GEntity :=
  cleanup world ++ setup_entities

/-- The obstacle spawned by `enemy_spawner` (`main.rs` lines 300-312) for
rng samples `x` (position), `v` (speed), `s` (scale): translation
`(x, 220, 0)`, scale `(s, s, 1)`, `Velocity(0, -v, 0)`, tagged `Collider`. -/
def obstacle_entity (x v s : ℚ) : GEntity :=
  ⟨false, true, ⟨⟨x, 220, 0⟩, ⟨s, s, 1⟩⟩, some ⟨0, -v, 0⟩⟩

/-- `enemy_spawner` (`main.rs` lines 286-314): ticks the spawn timer by the
frame delta and, if the timer finished, spawns one obstacle from the three
rng samples.  Returns the ticked timer and the optional spawned obstacle. -/
def enemy_spawner (delta : ℚ) (spawn_timer : Timer) (x v s : ℚ) :
    Timer × Option GEntity :=
  let t := spawn_timer.tick delta
  if t.finished then (t, some (obstacle_entity x v s)) else (t, none)

/-- `apply_velocity` (`main.rs` lines 279-284) acting on one entity: the
query matches entities with both `Transform` and `Velocity`, so entities
without a velocity are untouched; a matched entity's translation is
incremented by `velocity * delta_time`. -/
def apply_velocity_entity (delta_time : ℚ) (e : GEntity) : GEntity :=
  match e.velocity with
  | some v =>
    { e with transform :=
        { e.transform with
          translation := e.transform.translation.add (v.scale delta_time) } }
  | none => e

/-- `apply_velocity` over the whole world: each matched entity is updated
independently from its own components only. -/
def apply_velocity (delta_time : ℚ) (world : List GEntity) : List GEntity :=
  world.map (apply_velocity_entity delta_time)

/-- `player_movement` acting on one world entity: the query is
`Query<&mut Transform, With<Player>>`, so exactly the `Player`-tagged
entities get the movement applied to their transform. -/
def player_movement_entity (delta_time : ℚ) (keys : KeysPressed) (e : GEntity) :
    GEntity :=
  if e.isPlayer then { e with transform := player_movement delta_time keys e.transform }
  else e

/-- `player_movement` over the whole world. -/
def player_movement_world (delta_time : ℚ) (keys : KeysPressed)
    (world : List GEntity) : List GEntity :=
  world.map (player_movement_entity delta_time keys)

/-- Inputs a `Playing` frame consumes: the frame time, the held keys, and
the three rng samples `enemy_spawner` would draw if its timer fires. -/
structure FrameInput where
  dt : ℚ
  keys : KeysPressed
  x : ℚ
  v : ℚ
  s : ℚ
deriving DecidableEq, Repr

/-- `enemy_spawner` over the whole world: ticks the timer and, when it
finished, appends the one spawned obstacle to the entity list (the
`commands.spawn_bundle` inside the `if` of `main.rs` lines 294-313). -/
def enemy_spawner_world (f : FrameInput) (world : List GEntity) (t : Timer) :
    List GEntity × Timer :=
  let t2 := t.tick f.dt
  if t2.finished then (world ++ [obstacle_entity f.x f.v f.s], t2)
  else (world, t2)

/-- The entity-and-timer effect of one `Playing` update frame: the three
transform-writing systems of `SystemSet::on_update(GameState::Playing)`
(`apply_velocity`, `enemy_spawner`, `player_movement`) in registration
order (`main.rs` lines 67-75; bevy gives no order guarantee, and each of
the three writes disjoint data, so any order yields this effect). -/
def playing_frame (f : FrameInput) (w : List GEntity × Timer) :
    List GEntity × Timer :=
  let es1 := apply_velocity f.dt w.1
  let wt := enemy_spawner_world f es1 w.2
  (player_movement_world f.dt f.keys wt.1, wt.2)

/-- Folding `playing_frame` over a list of frames. -/
def run_playing (frames : List FrameInput) (w : List GEntity × Timer) :
    List GEntity × Timer :=
  frames.foldl (fun w f => playing_frame f w) w

/-- The spec's wording of the collision criterion, for comparison with the
code's `collide`: overlap exists iff the horizontal distance between the
two box centres is strictly below the sum of the half-widths and the
vertical distance is strictly below the sum of the half-heights. -/
def spec_overlap (c1 : Vec3) (s1 : Vec2) (c2 : Vec3) (s2 : Vec2) : Prop :=
  |c1.x - c2.x| < s1.x / 2 + s2.x / 2 ∧ |c1.y - c2.y| < s1.y / 2 + s2.y / 2

/-- The side-determination condition of bevy-0.6 `collide` on the box
corners: on at least one axis, box `a` strictly protrudes past box `b` on
exactly one side (the branch guards of `collideX` / `collideY`). -/
def side_determined_core (a_min a_max b_min b_max : Vec2) : Prop :=
  ((a_min.x < b_min.x ∧ a_max.x > b_min.x ∧ a_max.x < b_max.x) ∨
   (a_min.x > b_min.x ∧ a_min.x < b_max.x ∧ a_max.x > b_max.x)) ∨
  ((a_min.y < b_min.y ∧ a_max.y > b_min.y ∧ a_max.y < b_max.y) ∨
   (a_min.y > b_min.y ∧ a_min.y < b_max.y ∧ a_max.y > b_max.y))

/-- Side determination stated on box centres and sizes, with the corners
computed as `collide` computes them. -/
def side_determined (a_pos : Vec3) (a_size : Vec2) (b_pos : Vec3) (b_size : Vec2) :
    Prop :=
  side_determined_core
    ⟨a_pos.x - a_size.x / 2, a_pos.y - a_size.y / 2⟩
    ⟨a_pos.x + a_size.x / 2, a_pos.y + a_size.y / 2⟩
    ⟨b_pos.x - b_size.x / 2, b_pos.y - b_size.y / 2⟩
    ⟨b_pos.x + b_size.x / 2, b_pos.y + b_size.y / 2⟩

/-- The cumulative delta time of the `Playing` frames of a frame list. -/
def sum_playing (frames : List (GameState × ℚ)) : ℚ :=
  ((frames.filter fun f => decide (f.1 = GameState.Playing)).map Prod.snd).sum

/-- Folding `enemy_spawner` over a list of frame deltas (fixed rng samples),
collecting every obstacle it spawns. -/
def run_spawner (deltas : List ℚ) (t : Timer) (x v s : ℚ) :
    Timer × List GEntity :=
  deltas.foldl
    (fun acc dt =>
      match enemy_spawner dt acc.1 x v s with
      | (t', some ob) => (t', acc.2 ++ [ob])
      | (t', none) => (t', acc.2))
    (t, [])

/-- The player-shape invariant of the `Playing` phase: a `Player`-tagged
entity carries no `Velocity` and sits at the spawn height
`SCREEN_Y_RANGE.start = -220` with z-depth 0. -/
def player_ok (e : GEntity) : Prop :=
  e.isPlayer = true →
    e.velocity = none
  ∧ e.transform.translation.y = SCREEN_Y_RANGE.lo
  ∧ e.transform.translation.z = 0

/-! ### Helper lemmas -/

theorem run_score_cons (f : GameState × ℚ) (fs : List (GameState × ℚ)) (s : ℚ) :
    run_score (f :: fs) s = run_score fs (score_frame f.1 f.2 s) := rfl

theorem run_score_append (fs gs : List (GameState × ℚ)) (s : ℚ) :
    run_score (fs ++ gs) s = run_score gs (run_score fs s) := by
  simp [run_score, List.foldl_append]

theorem sum_playing_cons (f : GameState × ℚ) (fs : List (GameState × ℚ)) :
    sum_playing (f :: fs)
      = (if f.1 = GameState.Playing then f.2 else 0) + sum_playing fs := by
  by_cases h : f.1 = GameState.Playing <;> simp [sum_playing, List.filter_cons, h]

theorem run_score_eq_add (fs : List (GameState × ℚ)) :
    ∀ s : ℚ, run_score fs s = s + sum_playing fs := by
  induction fs with
  | nil => intro s; simp [run_score, sum_playing]
  | cons f fs ih =>
    intro s
    rw [run_score_cons, ih, sum_playing_cons]
    by_cases h : f.1 = GameState.Playing <;>
      simp [score_frame, update_score, h] <;> ring

theorem sum_playing_nonneg :
    ∀ fs : List (GameState × ℚ), (∀ f ∈ fs, 0 ≤ f.2) → 0 ≤ sum_playing fs := by
  intro fs
  induction fs with
  | nil => intro _; simp [sum_playing]
  | cons f fs ih =>
    intro h
    rw [sum_playing_cons]
    have h1 : (0:ℚ) ≤ f.2 := h f (List.mem_cons_self f fs)
    have h2 : 0 ≤ sum_playing fs := ih fun g hg => h g (List.mem_cons_of_mem f hg)
    by_cases hp : f.1 = GameState.Playing
    · simp [hp]; linarith
    · simp [hp]; linarith

/-- One tick of the game's 1-second repeating, unpaused spawn timer:
below the period nothing fires and the elapsed time just accumulates; on
crossing the period once the timer finishes and keeps the overflow
`elapsed + dt - 1` as the new elapsed time. -/
theorem tick_one_second (t : Timer) (dt : ℚ)
    (hdur : t.duration = 1) (hrep : t.repeating = true) (hpau : t.paused = false) :
    (t.elapsed + dt < 1 →
      t.tick dt
        = { t with elapsed := t.elapsed + dt, finished := false, times_finished := 0 })
  ∧ (1 ≤ t.elapsed + dt → t.elapsed + dt < 2 →
      t.tick dt
        = { t with elapsed := t.elapsed + dt - 1, finished := true, times_finished := 1 }) := by
  constructor
  · intro h
    rw [Timer.tick]
    simp only [hpau, hrep, hdur]
    rw [if_neg (by simp), if_neg (by simp)]
    rw [if_neg (by intro hc; rw [ge_iff_le] at hc; linarith)]
  · intro h1 h2
    have hfl : (⌊(t.elapsed + dt) / 1⌋ : ℤ) = 1 := by
      rw [div_one, Int.floor_eq_iff]
      constructor
      · push_cast; linarith
      · push_cast; linarith
    rw [Timer.tick]
    simp only [hpau, hrep, hdur]
    rw [if_neg (by simp), if_neg (by simp)]
    rw [if_pos (by rw [ge_iff_le]; linarith)]
    rw [if_pos trivial]
    simp only [hfl]
    norm_num

theorem collideX_fst_isSome (a_min a_max b_min b_max : Vec2) :
    (collideX a_min a_max b_min b_max).1.isSome = true ↔
      ((a_min.x < b_min.x ∧ a_max.x > b_min.x ∧ a_max.x < b_max.x) ∨
       (a_min.x > b_min.x ∧ a_min.x < b_max.x ∧ a_max.x > b_max.x)) := by
  rw [collideX]
  split_ifs with h1 h2 <;> simp [*]

theorem collideY_fst_isSome (a_min a_max b_min b_max : Vec2) :
    (collideY a_min a_max b_min b_max).1.isSome = true ↔
      ((a_min.y < b_min.y ∧ a_max.y > b_min.y ∧ a_max.y < b_max.y) ∨
       (a_min.y > b_min.y ∧ a_min.y < b_max.y ∧ a_max.y > b_max.y)) := by
  rw [collideY]
  split_ifs with h1 h2 <;> simp [*]

theorem collide_sides_isSome (a_min a_max b_min b_max : Vec2) :
    (collide_sides a_min a_max b_min b_max).isSome = true ↔
      side_determined_core a_min a_max b_min b_max := by
  rw [side_determined_core,
    ← collideX_fst_isSome a_min a_max b_min b_max,
    ← collideY_fst_isSome a_min a_max b_min b_max]
  rw [collide_sides]
  rcases hx : (collideX a_min a_max b_min b_max).1 with _ | xc <;>
    rcases hy : (collideY a_min a_max b_min b_max).1 with _ | yc <;>
      simp only [hx, hy] <;> simp
  split_ifs <;> simp

/-- bevy-0.6 `collide` reports a hit iff the boxes strictly intersect AND
at least one axis determines a side. -/
theorem collide_isSome_iff (a_pos : Vec3) (a_size : Vec2) (b_pos : Vec3) (b_size : Vec2) :
    (collide a_pos a_size b_pos b_size).isSome = true ↔
      spec_overlap a_pos a_size b_pos b_size
        ∧ side_determined a_pos a_size b_pos b_size := by
  have hov : (a_pos.x - a_size.x / 2 < b_pos.x + b_size.x / 2 ∧
      a_pos.x + a_size.x / 2 > b_pos.x - b_size.x / 2 ∧
      a_pos.y - a_size.y / 2 < b_pos.y + b_size.y / 2 ∧
      a_pos.y + a_size.y / 2 > b_pos.y - b_size.y / 2)
      ↔ spec_overlap a_pos a_size b_pos b_size := by
    rw [spec_overlap]
    constructor
    · rintro ⟨h1, h2, h3, h4⟩
      constructor <;> rw [abs_sub_lt_iff] <;> exact ⟨by linarith, by linarith⟩
    · rintro ⟨h1, h2⟩
      rw [abs_sub_lt_iff] at h1 h2
      exact ⟨by linarith [h1.1], by linarith [h1.2], by linarith [h2.1], by linarith [h2.2]⟩
  rw [side_determined]
  simp only [collide]
  split_ifs with h
  · rw [collide_sides_isSome]
    constructor
    · intro hs
      exact ⟨hov.1 h, hs⟩
    · rintro ⟨-, hs⟩
      exact hs
  · constructor
    · intro hc
      exact absurd hc (by simp)
    · rintro ⟨hsp, -⟩
      exact absurd (hov.2 hsp) h

theorem check_collisions_pair (pid oid : ℕ) (pT oT : Transform) :
    check_collisions [(pid, pT)] [(oid, oT)]
      = if (collide pT.translation (entity_box_size pT) oT.translation
              (entity_box_size oT)).isSome then [(⟨pid, oid⟩ : CollisionEvent)]
        else [] := by
  rw [check_collisions]
  simp only [List.flatMap_cons, List.flatMap_nil, List.filterMap_cons, List.filterMap_nil]
  split_ifs with h <;> simp [h]

/-! ### Claim theorems -/

/-- **C1** counterexample: two boxes whose centres coincide, one 16×16
(player, scale 1) and one 32×32 (obstacle, scale 2), satisfy the claim's
strict AABB overlap condition, yet `check_collisions` emits no event:
bevy-0.6 `collide` returns `None` when one box is inside the other, since
neither axis determines a hit side. -/
theorem collision_containment_not_reported :
    spec_overlap ⟨0, 0, 0⟩ (entity_box_size ⟨⟨0, 0, 0⟩, ⟨1, 1, 1⟩⟩) ⟨0, 0, 0⟩
        (entity_box_size ⟨⟨0, 0, 0⟩, ⟨2, 2, 1⟩⟩)
  ∧ check_collisions [(0, ⟨⟨0, 0, 0⟩, ⟨1, 1, 1⟩⟩)] [(1, ⟨⟨0, 0, 0⟩, ⟨2, 2, 1⟩⟩)] = [] := by
  constructor
  · norm_num [spec_overlap, entity_box_size, SPRITE_SIZE]
  · norm_num [check_collisions, List.filterMap_cons, collide, collide_sides,
      collideX, collideY, entity_box_size, SPRITE_SIZE]

/-- **C1** (amended): for the player and an obstacle (boxes sized 16×16
scaled per-axis by each entity's scale factor), `check_collisions` emits
the event iff the strict AABB overlap condition holds AND at least one
axis determines a hit side (one box strictly protrudes past the other on
exactly one side of that axis); the claim's concrete examples — centres
(0,0)/(10,0) overlap, centres (0,0)/(20,0) do not — behave as stated. -/
theorem check_collisions_amended (pid oid : ℕ) (pT oT : Transform) :
    (check_collisions [(pid, pT)] [(oid, oT)] = [⟨pid, oid⟩]
      ↔ spec_overlap pT.translation (entity_box_size pT) oT.translation (entity_box_size oT)
        ∧ side_determined pT.translation (entity_box_size pT) oT.translation
            (entity_box_size oT))
  ∧ (check_collisions [(pid, pT)] [(oid, oT)] = [⟨pid, oid⟩]
      ∨ check_collisions [(pid, pT)] [(oid, oT)] = [])
  ∧ check_collisions [(10, ⟨⟨0, 0, 0⟩, ⟨1, 1, 1⟩⟩)] [(20, ⟨⟨10, 0, 0⟩, ⟨1, 1, 1⟩⟩)]
      = [⟨10, 20⟩]
  ∧ check_collisions [(10, ⟨⟨0, 0, 0⟩, ⟨1, 1, 1⟩⟩)] [(20, ⟨⟨20, 0, 0⟩, ⟨1, 1, 1⟩⟩)]
      = [] := by
  refine ⟨?_, ?_, ?_, ?_⟩
  · rw [check_collisions_pair, ← collide_isSome_iff]
    split_ifs with h <;> simp [h]
  · rw [check_collisions_pair]
    split_ifs <;> simp
  · norm_num [check_collisions, List.filterMap_cons, collide, collide_sides,
      collideX, collideY, entity_box_size, SPRITE_SIZE]
  · norm_num [check_collisions, List.filterMap_cons, collide, collide_sides,
      collideX, collideY, entity_box_size, SPRITE_SIZE]

/-- **C2**: in a frame where `end_on_collision` observes collision events
while the active state is `Playing`, the first event queues the single
`Playing → GameOver` transition; but a second event in the same frame is
not a harmless no-op: `current()` still reads `Playing` (the transition is
only queued), so the guard does not fire, `set(GameOver)` returns
`Err(StateAlreadyQueued)`, and the `unwrap` panics (modelled as `none`).
The claimed exactly-once/no-op behaviour fails on the code. -/
theorem end_on_collision_double_event :
    end_on_collision [⟨1, 2⟩] ⟨GameState.Playing, none⟩
        = some ⟨GameState.Playing, some GameState.GameOver⟩
  ∧ end_on_collision [⟨1, 2⟩] ⟨GameState.GameOver, none⟩
        = some ⟨GameState.GameOver, none⟩
  ∧ end_on_collision [⟨1, 2⟩, ⟨1, 3⟩] ⟨GameState.Playing, none⟩ = none :=
  ⟨rfl, rfl, rfl⟩

/-- **C3**: an invalid transition request is not treated as a no-op: with a
transition already queued, `State::set` returns `Err(StateAlreadyQueued)`,
and both `end_on_collision` and `start_game` `unwrap` it — a panic
(modelled as `none`), i.e. a fatal failure instead of the claimed no-op. -/
theorem invalid_transition_request_panics :
    BevyState.set ⟨GameState.Playing, some GameState.GameOver⟩ GameState.GameOver
        = Except.error StateError.StateAlreadyQueued
  ∧ end_on_collision [⟨1, 3⟩] ⟨GameState.Playing, some GameState.GameOver⟩ = none
  ∧ start_game true ⟨GameState.GameOver, some GameState.Playing⟩ = none :=
  ⟨rfl, rfl, rfl⟩

/-- **C4**: starting from 0, the score after a frame list equals the
cumulative delta time of its `Playing` frames; with non-negative frame
deltas the score never decreases as further frames run; and a frame whose
phase is not `Playing` leaves the score unchanged. -/
theorem score_playing_accrual (fs gs : List (GameState × ℚ)) (s dt : ℚ)
    (p : GameState) (hg : ∀ f ∈ gs, 0 ≤ f.2) (hp : p ≠ GameState.Playing) :
    run_score fs 0 = sum_playing fs
  ∧ run_score fs 0 ≤ run_score (fs ++ gs) 0
  ∧ score_frame p dt s = s := by
  refine ⟨by simpa using run_score_eq_add fs 0, ?_, by simp [score_frame, hp]⟩
  rw [run_score_append, run_score_eq_add gs]
  have := sum_playing_nonneg gs hg
  linarith

/-- Witness for `score_playing_accrual` at concrete frames. -/
theorem score_playing_accrual_witness :
    (∀ f ∈ [(GameState.GameOver, (1:ℚ))], 0 ≤ f.2)
  ∧ GameState.Title ≠ GameState.Playing
  ∧ (run_score [(GameState.Playing, 1/2)] 0 = sum_playing [(GameState.Playing, 1/2)]
  ∧ run_score [(GameState.Playing, 1/2)] 0
      ≤ run_score ([(GameState.Playing, 1/2)] ++ [(GameState.GameOver, 1)]) 0
  ∧ score_frame GameState.Title 3 5 = 5) :=
  ⟨by norm_num, by decide,
    score_playing_accrual [(GameState.Playing, 1/2)] [(GameState.GameOver, 1)] 5 3
      GameState.Title (by norm_num) (by decide)⟩

/-- **C5**: the spawn director accumulates each frame's delta into the
fixed 1-second repeating timer; while the accumulated time stays below the
period no spawn request is emitted; when it crosses the period the
accumulator wraps to the overflow (not to 0) and exactly one spawn request
is emitted that frame; concretely, deltas `[0.4, 0.4, 0.3]` fire exactly
one spawn with `0.1` carried over in the accumulator. -/
theorem spawn_director_period (t : Timer) (dt x v s : ℚ)
    (hdur : t.duration = 1) (hrep : t.repeating = true) (hpau : t.paused = false) :
    (t.elapsed + dt < 1 →
        (enemy_spawner dt t x v s).2 = none
      ∧ (enemy_spawner dt t x v s).1.elapsed = t.elapsed + dt)
  ∧ (1 ≤ t.elapsed + dt → t.elapsed + dt < 2 →
        (enemy_spawner dt t x v s).2 = some (obstacle_entity x v s)
      ∧ (enemy_spawner dt t x v s).1.elapsed = t.elapsed + dt - 1)
  ∧ (run_spawner [2/5, 2/5, 3/10] (Timer.new 1 true) x v s).2 = [obstacle_entity x v s]
  ∧ (run_spawner [2/5, 2/5, 3/10] (Timer.new 1 true) x v s).1.elapsed = 1/10 := by
  obtain ⟨tl, th⟩ := tick_one_second t dt hdur hrep hpau
  refine ⟨fun h => ?_, fun h1 h2 => ?_, ?_⟩
  · simp only [enemy_spawner, tl h]
    simp
  · simp only [enemy_spawner, th h1 h2]
    simp
  · constructor
    · norm_num [run_spawner, enemy_spawner, Timer.new, Timer.tick]
    · norm_num [run_spawner, enemy_spawner, Timer.new, Timer.tick]

/-- Witness for `spawn_director_period`: a fresh timer does not fire on a
0.5s frame, and the concrete `[0.4, 0.4, 0.3]` scenario fires once. -/
theorem spawn_director_period_witness :
    (enemy_spawner (1/2) (Timer.new 1 true) 7 60 2).2 = none
  ∧ (run_spawner [2/5, 2/5, 3/10] (Timer.new 1 true) 7 60 2).2 = [obstacle_entity 7 60 2]
  ∧ (run_spawner [2/5, 2/5, 3/10] (Timer.new 1 true) 7 60 2).1.elapsed = 1/10 :=
  ⟨((spawn_director_period (Timer.new 1 true) (1/2) 7 60 2 rfl rfl rfl).1
      (by norm_num [Timer.new])).1,
   (spawn_director_period (Timer.new 1 true) (1/2) 7 60 2 rfl rfl rfl).2.2.1,
   (spawn_director_period (Timer.new 1 true) (1/2) 7 60 2 rfl rfl rfl).2.2.2⟩

/-- **C6**: whenever the spawn timer fires, `enemy_spawner` spawns exactly
the obstacle built from its three rng samples: translation `(x, 220, 0)`
(`220` is the top edge of `SCREEN_Y_RANGE`), per-axis scale `(s, s, 1)`,
velocity `(0, -v, 0)` (zero horizontal, negated sampled speed vertical);
and the samples, drawn by `gen_range` from the half-open constant ranges,
lie in the claimed closed intervals. -/
theorem obstacle_spawn_parameters (delta x v s : ℚ) (t : Timer)
    (hx : SCREEN_X_RANGE.mem x) (hv : OBJECT_SPEED.mem v) (hs : OBJECT_SIZE.mem s)
    (hfire : (t.tick delta).finished = true) :
    (enemy_spawner delta t x v s).2 = some (obstacle_entity x v s)
  ∧ (obstacle_entity x v s).transform.translation.x = x
  ∧ (obstacle_entity x v s).transform.translation.y = SCREEN_Y_RANGE.hi
  ∧ (obstacle_entity x v s).transform.translation.z = 0
  ∧ (obstacle_entity x v s).velocity = some ⟨0, -v, 0⟩
  ∧ (obstacle_entity x v s).transform.scale = ⟨s, s, 1⟩
  ∧ (obstacle_entity x v s).isCollider = true
  ∧ -320 ≤ x ∧ x ≤ 320 ∧ 50 ≤ v ∧ v ≤ 125 ∧ (1/2 : ℚ) ≤ s ∧ s ≤ 5 := by
  obtain ⟨hx1, hx2⟩ := hx
  obtain ⟨hv1, hv2⟩ := hv
  obtain ⟨hs1, hs2⟩ := hs
  simp only [SCREEN_X_RANGE, OBJECT_SPEED, OBJECT_SIZE] at hx1 hx2 hv1 hv2 hs1 hs2
  exact ⟨by simp [enemy_spawner, hfire], rfl, rfl, rfl, rfl, rfl, rfl,
    hx1, le_of_lt hx2, hv1, le_of_lt hv2, hs1, le_of_lt hs2⟩

/-- Witness for `obstacle_spawn_parameters` at concrete samples. -/
theorem obstacle_spawn_parameters_witness :
    SCREEN_X_RANGE.mem 0 ∧ OBJECT_SPEED.mem 50 ∧ OBJECT_SIZE.mem 1
  ∧ ((Timer.new 1 true).tick 1).finished = true
  ∧ (enemy_spawner 1 (Timer.new 1 true) 0 50 1).2 = some (obstacle_entity 0 50 1) :=
  ⟨by norm_num [RangeQ.mem, SCREEN_X_RANGE], by norm_num [RangeQ.mem, OBJECT_SPEED],
   by norm_num [RangeQ.mem, OBJECT_SIZE], by norm_num [Timer.new, Timer.tick],
   (obstacle_spawn_parameters 1 0 50 1 (Timer.new 1 true)
      (by norm_num [RangeQ.mem, SCREEN_X_RANGE]) (by norm_num [RangeQ.mem, OBJECT_SPEED])
      (by norm_num [RangeQ.mem, OBJECT_SIZE]) (by norm_num [Timer.new, Timer.tick])).1⟩

/-- **C8**: the player controller's horizontal intent is `-1` while only
move-left is held, `+1` while only move-right is held, and `0` when both
are held (the two contributions accumulate and cancel); the new horizontal
position is `old + intent * PLAYER_SPEED * delta_time`; the vertical
position, depth and scale are untouched; and there is no clamping — from
the right screen edge a right move exits the visible range. -/
theorem player_movement_spec (dt : ℚ) (k : KeysPressed) (t : Transform) :
    (player_movement dt k t).translation.x
      = t.translation.x
        + ((if k.left then (-1 : ℚ) else 0) + (if k.right then 1 else 0))
            * PLAYER_SPEED * dt
  ∧ (player_movement dt k t).translation.y = t.translation.y
  ∧ (player_movement dt k t).translation.z = t.translation.z
  ∧ (player_movement dt k t).scale = t.scale
  ∧ (player_movement 1 ⟨false, true⟩
        ⟨⟨SCREEN_X_RANGE.hi, SCREEN_Y_RANGE.lo, 0⟩, ⟨1, 1, 1⟩⟩).translation.x
      = SCREEN_X_RANGE.hi + PLAYER_SPEED := by
  refine ⟨?_, rfl, rfl, rfl, by norm_num [player_movement, SCREEN_X_RANGE,
    SCREEN_Y_RANGE, PLAYER_SPEED]⟩
  cases hl : k.left <;> cases hr : k.right <;>
    simp [player_movement, hl, hr]

/-- **C9**: one motion-integration step maps each entity independently
(`(world.map f)[i]? = (world[i]?).map f` — no entity reads another's
position); an entity with a velocity gets `new_position =
old_position + velocity * delta_time` componentwise with scale, tags and
velocity unchanged; an entity without a velocity is not matched by the
query and is unchanged. -/
theorem apply_velocity_spec (dt : ℚ) (hdt : 0 ≤ dt) (world : List GEntity) :
    (∀ i : ℕ, (apply_velocity dt world)[i]? = (world[i]?).map (apply_velocity_entity dt))
  ∧ (∀ e v, e.velocity = some v →
        (apply_velocity_entity dt e).transform.translation.x
            = e.transform.translation.x + v.x * dt
      ∧ (apply_velocity_entity dt e).transform.translation.y
            = e.transform.translation.y + v.y * dt
      ∧ (apply_velocity_entity dt e).transform.translation.z
            = e.transform.translation.z + v.z * dt
      ∧ (apply_velocity_entity dt e).transform.scale = e.transform.scale
      ∧ (apply_velocity_entity dt e).velocity = e.velocity
      ∧ (apply_velocity_entity dt e).isPlayer = e.isPlayer
      ∧ (apply_velocity_entity dt e).isCollider = e.isCollider)
  ∧ (∀ e, e.velocity = none → apply_velocity_entity dt e = e) := by
  refine ⟨fun i => by simp [apply_velocity], fun e v hv => ?_, fun e hv => ?_⟩
  · simp [apply_velocity_entity, hv, Vec3.add, Vec3.scale]
  · simp [apply_velocity_entity, hv]

/-- Witness for `apply_velocity_spec` on a spawned obstacle. -/
theorem apply_velocity_spec_witness :
    (0 : ℚ) ≤ 1
  ∧ (apply_velocity_entity 1 (obstacle_entity 0 50 1)).transform.translation.y
      = (obstacle_entity 0 50 1).transform.translation.y + (-50) * 1 :=
  ⟨by norm_num,
   ((apply_velocity_spec 1 (by norm_num) [obstacle_entity 0 50 1]).2.1
      (obstacle_entity 0 50 1) ⟨0, -50, 0⟩ rfl).2.1⟩

/-- **C7**: `cleanup` destroys every entity of the world; entering
`Playing` (exit-cleanup, then `setup`) therefore yields exactly the setup
spawn list: exactly one `Player`-tagged entity (at the fixed start position
`(0, -220, 0)`, the bottom of the vertical range) and zero `Collider`
obstacles, with the scoreboard reset to 0 and a fresh armed 1-second
repeating `SpawnTimer`. -/
theorem cleanup_and_enter_playing (w : List GEntity) :
    cleanup w = []
  ∧ enter_playing w = setup_entities
  ∧ (setup_entities.countP fun e => e.isPlayer) = 1
  ∧ (setup_entities.countP fun e => e.isCollider) = 0
  ∧ player_entity ∈ setup_entities
  ∧ player_entity.isPlayer = true
  ∧ player_entity.transform.translation.x = 0
  ∧ player_entity.transform.translation.y = SCREEN_Y_RANGE.lo
  ∧ player_entity.transform.translation.z = 0
  ∧ player_entity.velocity = none
  ∧ setup_scoreboard = 0
  ∧ setup_spawn_timer = Timer.new 1 true
  ∧ setup_spawn_timer.elapsed = 0
  ∧ setup_spawn_timer.finished = false
  ∧ setup_spawn_timer.repeating = true :=
  ⟨rfl, rfl, rfl, rfl, by simp [setup_entities], rfl, rfl, rfl, rfl, rfl,
   rfl, rfl, rfl, rfl, rfl⟩

theorem player_ok_apply_velocity (dt : ℚ) (e : GEntity) (h : player_ok e) :
    player_ok (apply_velocity_entity dt e) := by
  rcases he : e.velocity with _ | v
  · have heq : apply_velocity_entity dt e = e := by simp [apply_velocity_entity, he]
    rw [heq]
    exact h
  · intro hp
    have hpe : e.isPlayer = true := by
      simpa [apply_velocity_entity, he] using hp
    exact absurd (h hpe).1 (by simp [he])

theorem player_ok_player_movement (dt : ℚ) (k : KeysPressed) (e : GEntity)
    (h : player_ok e) : player_ok (player_movement_entity dt k e) := by
  rw [player_movement_entity]
  by_cases hp : e.isPlayer = true
  · simp only [hp, if_true]
    intro _
    obtain ⟨h1, h2, h3⟩ := h hp
    exact ⟨h1, by simpa [player_movement] using h2, by simpa [player_movement] using h3⟩
  · simp only [hp, if_false]
    exact h

theorem player_ok_obstacle (x v s : ℚ) : player_ok (obstacle_entity x v s) := by
  intro hp
  simp [obstacle_entity] at hp

theorem player_ok_frame (f : FrameInput) (w : List GEntity × Timer)
    (h : ∀ e ∈ w.1, player_ok e) :
    ∀ e ∈ (playing_frame f w).1, player_ok e := by
  intro e he
  simp only [playing_frame, player_movement_world, List.mem_map] at he
  obtain ⟨e2, he2, rfl⟩ := he
  apply player_ok_player_movement
  have hmem : e2 ∈ apply_velocity f.dt w.1 ∨ e2 = obstacle_entity f.x f.v f.s := by
    simp only [enemy_spawner_world] at he2
    by_cases hf : ((w.2).tick f.dt).finished = true
    · simp only [hf, if_true, List.mem_append, List.mem_singleton] at he2
      exact he2
    · simp only [hf, if_false] at he2
      exact Or.inl he2
  rcases hmem with h1 | rfl
  · simp only [apply_velocity, List.mem_map] at h1
    obtain ⟨e0, he0, rfl⟩ := h1
    exact player_ok_apply_velocity _ _ (h e0 he0)
  · exact player_ok_obstacle _ _ _

theorem player_ok_run (frames : List FrameInput) :
    ∀ w : List GEntity × Timer, (∀ e ∈ w.1, player_ok e) →
      ∀ e ∈ (run_playing frames w).1, player_ok e := by
  induction frames with
  | nil =>
    intro w h
    simpa [run_playing] using h
  | cons f fs ih =>
    intro w h
    have hstep : run_playing (f :: fs) w = run_playing fs (playing_frame f w) := rfl
    rw [hstep]
    exact ih (playing_frame f w) (player_ok_frame f w h)

theorem player_ok_setup : ∀ e ∈ setup_entities, player_ok e := by
  intro e he
  simp only [setup_entities, List.mem_cons, List.not_mem_nil, or_false] at he
  rcases he with rfl | rfl | rfl | rfl
  · intro hp; simp [camera_entity, default_transform] at hp
  · intro hp; simp [ui_camera_entity, default_transform] at hp
  · intro _; exact ⟨rfl, rfl, rfl⟩
  · intro hp; simp [score_text_entity, default_transform] at hp

/-- **C10**: over any run of `Playing` frames from the setup world, every
`Player`-tagged entity still has no `Velocity` component (so the motion
integrator never matches it) and its vertical coordinate is still the
spawn value `-220` (bottom of the vertical range) with depth 0; the
integrator is the identity on velocity-less entities; `player_movement`
writes only the x coordinate (y, z and scale are preserved); and
`enemy_spawner` only appends a new obstacle, never touching existing
entities — so among the per-frame systems only the player-movement system
mutates the player's transform, and only in x. -/
theorem player_untouched_by_integrator (frames : List FrameInput) :
    (∀ e ∈ (run_playing frames (setup_entities, setup_spawn_timer)).1,
        e.isPlayer = true →
          e.velocity = none
        ∧ e.transform.translation.y = -220
        ∧ e.transform.translation.z = 0)
  ∧ (∀ dt e, e.velocity = none → apply_velocity_entity dt e = e)
  ∧ (∀ dt k t, (player_movement dt k t).translation.y = t.translation.y
      ∧ (player_movement dt k t).translation.z = t.translation.z
      ∧ (player_movement dt k t).scale = t.scale)
  ∧ (∀ f es t, (enemy_spawner_world f es t).1 = es
      ∨ (enemy_spawner_world f es t).1 = es ++ [obstacle_entity f.x f.v f.s]) := by
  refine ⟨?_, ?_, ?_, ?_⟩
  · intro e he hp
    exact player_ok_run frames (setup_entities, setup_spawn_timer) player_ok_setup e he hp
  · intro dt e h
    simp [apply_velocity_entity, h]
  · intro dt k t
    exact ⟨rfl, rfl, rfl⟩
  · intro f es t
    simp only [enemy_spawner_world]
    by_cases hf : (t.tick f.dt).finished = true
    · simp [hf]
    · simp [hf]

/-- Witness for `player_untouched_by_integrator` at the setup world. -/
theorem player_untouched_by_integrator_witness :
    player_entity ∈ (run_playing [] (setup_entities, setup_spawn_timer)).1
  ∧ player_entity.isPlayer = true
  ∧ (player_entity.velocity = none
      ∧ player_entity.transform.translation.y = -220
      ∧ player_entity.transform.translation.z = 0) :=
  ⟨by simp [run_playing, setup_entities], rfl,
   (player_untouched_by_integrator []).1 player_entity
     (by simp [run_playing, setup_entities]) rfl⟩

end Dodger

